import Mathlib

/-
Shallow embedding of the Salt state module src/salt/states/icinga2.py.

The module defines five declarative state functions (generate_ticket,
generate_cert, save_cert, request_cert, node_setup).  Each one reads a
global dry-run flag and talks to three collaborators: a filesystem probe
(os.path.isfile), the grain key-value store (grains.ls, grains.get,
grains.setval) and a command executor (the icinga2 execution module).
We model the collaborators as explicit fields of a context record and
thread the mutable world (existing files, grain store) as an explicit
state.  Every function returns an option of (result record, new state,
effect trace); none models a raised Python exception, which happens on
two paths of generate_ticket: writing the ticket to a file dereferences
the function parameter salt, which shadows the imported salt package
(AttributeError), and item assignment on a non-dict grain value raises
TypeError.
-/

namespace Icinga2

/-- Structured result of an external command: captured standard output
and integer return code, as produced by the icinga2 execution module. -/
structure CmdResult where
  stdout : String
  retcode : Int

/-- A Python-like value held in the grain store: a string, an integer,
or a dictionary with string keys (modelled as an association list). -/
inductive PyVal where
  | str : String → PyVal
  | int : Int → PyVal
  | dict : List (String × PyVal) → PyVal

/-- The result record each state function builds: name, changes mapping,
tri-state result (some true = success, some false = failure, none =
dry-run would-change) and comment, mirroring the Python ret dict. -/
structure StateRet where
  name : String
  changes : List (String × String)
  result : Option Bool
  comment : String
deriving DecidableEq

/-- The mutable world the functions observe and mutate: the set of
existing files and the grain key-value store. -/
structure SysState where
  files : List String
  grains : List (String × PyVal)

/-- The ambient context: the global dry-run flag (the test key of the
options dictionary), the certificate directory returned by
get_certs_path, and the five command-executor operations. -/
structure Ctx where
  test : Bool
  certs_path : String
  icinga2_generate_ticket : String → Option String → CmdResult
  icinga2_generate_cert : String → CmdResult
  icinga2_save_cert : String → String → CmdResult
  icinga2_request_cert : String → String → String → String → CmdResult
  icinga2_node_setup : String → String → String → CmdResult

/-- One observable interaction with a collaborator, recorded in order. -/
inductive Effect where
  | isfileProbe : String → Effect
  | grainsLsRead : Effect
  | grainsGetRead : String → Effect
  | grainsSetval : String → PyVal → Effect
  | fileWrite : String → String → Effect
  | execGenerateTicket : String → Option String → Effect
  | execGenerateCert : String → Effect
  | execSaveCert : String → String → Effect
  | execRequestCert : String → String → String → String → Effect
  | execNodeSetup : String → String → String → Effect

/-- Is the effect a command-executor invocation? -/
def Effect.isExec : Effect → Bool
  | execGenerateTicket _ _ => true
  | execGenerateCert _ => true
  | execSaveCert _ _ => true
  | execRequestCert _ _ _ _ => true
  | execNodeSetup _ _ _ => true
  | _ => false

/-- Is the effect a mutation (grain-store write or file write)? -/
def Effect.isStoreWrite : Effect → Bool
  | grainsSetval _ _ => true
  | fileWrite _ _ => true
  | _ => false

/-- grains.ls: the list of grain names currently set. -/
def grainsLs (g : List (String × PyVal)) : List String := g.map Prod.fst

/-- grains.get: the value of a grain; only consulted by the source after
a successful membership test on grains.ls. -/
def grainsGet (g : List (String × PyVal)) (k : String) : PyVal :=
  (g.lookup k).getD (PyVal.dict [])

/-- Update an association list at a key, overwriting an existing binding
and otherwise adding a fresh binding at the end (Python dict update). -/
def setAssoc : List (String × PyVal) → String → PyVal → List (String × PyVal)
  | [], k, v => [(k, v)]
  | (k0, v0) :: t, k, v =>
    if k0 = k then (k, v) :: t else (k0, v0) :: setAssoc t k v

/-- Boolean substring test on character lists (needle occurs in hay). -/
def hasSubstr (needle : List Char) : List Char → Bool
  | [] => needle.isEmpty
  | c :: t => needle.isPrefixOf (c :: t) || hasSubstr needle t

/-- Python membership test k in v.  On a dict it tests key membership,
on a string it tests substring containment, and on an integer it raises
TypeError, modelled as none. -/
def pyContains (k : String) : PyVal → Option Bool
  | PyVal.dict m => some (m.any (fun p => p.1 == k))
  | PyVal.str s => some (hasSubstr k.toList s.toList)
  | PyVal.int _ => none

/-- Python item assignment v[k] = x.  Only a dict supports it; on any
other value it raises TypeError, modelled as none. -/
def pySetItem : PyVal → String → PyVal → Option PyVal
  | PyVal.dict m, k, v => some (PyVal.dict (setAssoc m k v))
  | _, _, _ => none

/-- Python truthiness of an optional string argument: None and the empty
string are falsy. -/
def truthy (o : Option String) : Prop := o.getD "" ≠ ""

instance : DecidablePred truthy := fun o => by
  unfold truthy; infer_instance

/-- The execution block of generate_ticket (source lines after the
comment Executing the command): call the executor, set the comment to
the ticket text only when the return code is falsy, then store the
ticket according to the requested output mode.  The fx argument is the
effect trace accumulated by the check phase.  In the file-output branch
the source opens the file with salt.utils.files.fopen, but the function
parameter salt shadows the imported salt package, so that line raises
AttributeError and no record is returned: modelled as none. -/
def ticketExec (ctx : Ctx) (st : SysState) (name : String)
    (output grain key : Option String) (salt : Option String)
    (fx : List Effect) : Option (StateRet × SysState × List Effect) :=
  let tr := ctx.icinga2_generate_ticket name salt
  let ticket := tr.stdout
  let fx := fx ++ [Effect.execGenerateTicket name salt]
  let c0 := if tr.retcode = 0 then ticket else ""
  if output = some "grain" then
    if truthy grain ∧ ¬ truthy key then
      let g := grain.getD ""
      some ({ name := name,
              changes := [("ticket", "Executed. Output into grain: " ++ g)],
              result := some true, comment := c0 },
            { st with grains := setAssoc st.grains g (PyVal.str ticket) },
            fx ++ [Effect.grainsSetval g (PyVal.str ticket)])
    else if truthy grain then
      let g := grain.getD ""
      let k := key.getD ""
      let inLs := (grainsLs st.grains).contains g
      let fx := fx ++ (if inLs = true then
        [Effect.grainsLsRead, Effect.grainsGetRead g] else [Effect.grainsLsRead])
      let gv := if inLs = true then grainsGet st.grains g else PyVal.dict []
      match pySetItem gv k (PyVal.str ticket) with
      | none => none
      | some gv2 =>
        some ({ name := name,
                changes := [("ticket", "Executed. Output into grain: " ++ g ++ ":" ++ k)],
                result := some true, comment := c0 },
              { st with grains := setAssoc st.grains g gv2 },
              fx ++ [Effect.grainsSetval g gv2])
    else
      some ({ name := name, changes := [], result := some true, comment := c0 }, st, fx)
  else if truthy output then
    none
  else
    some ({ name := name, changes := [("ticket", "Executed")],
            result := some true, comment := c0 }, st, fx)

/-- generate_ticket: generate an icinga2 ticket on the parent, storing
the result in a grain, a file, or only in the comment.  Check phase
first (short-circuit when overwrite is disallowed and the target is
already set, then the dry-run check, then the usage error for output
grain without a grain name), then the execution block. -/
def generate_ticket (ctx : Ctx) (st : SysState) (name : String)
    (output grain key : Option String) (overwrite : Bool) (salt : Option String) :
    Option (StateRet × SysState × List Effect) :=
  let ret : StateRet := { name := name, changes := [], result := some true, comment := "" }
  if output = some "grain" then
    if truthy grain ∧ ¬ truthy key then
      let g := grain.getD ""
      if overwrite = false ∧ (grainsLs st.grains).contains g = true then
        some ({ ret with comment := "No execution needed. Grain " ++ g ++ " already set" },
              st, [Effect.grainsLsRead])
      else if ctx.test = true then
        some ({ ret with
                result := none
                comment := "Ticket generation would be executed, storing result in grain: " ++ g },
              st, if overwrite = false then [Effect.grainsLsRead] else [])
      else
        ticketExec ctx st name output grain key salt
          (if overwrite = false then [Effect.grainsLsRead] else [])
    else if truthy grain then
      let g := grain.getD ""
      let k := key.getD ""
      let inLs := (grainsLs st.grains).contains g
      let fx0 := if inLs = true then
        [Effect.grainsLsRead, Effect.grainsGetRead g] else [Effect.grainsLsRead]
      let gv := if inLs = true then grainsGet st.grains g else PyVal.dict []
      if overwrite = false then
        match pyContains k gv with
        | none => none
        | some b =>
          if b = true then
            some ({ ret with comment :=
                    "No execution needed. Grain " ++ g ++ ":" ++ k ++ " already set" },
                  st, fx0)
          else if ctx.test = true then
            some ({ ret with result := none, comment :=
                    "Ticket generation would be executed, storing result in grain: " ++ g ++ ":" ++ k },
                  st, fx0)
          else
            ticketExec ctx st name output grain key salt fx0
      else if ctx.test = true then
        some ({ ret with result := none, comment :=
                "Ticket generation would be executed, storing result in grain: " ++ g ++ ":" ++ k },
              st, fx0)
      else
        ticketExec ctx st name output grain key salt fx0
    else
      some ({ ret with
              result := some false
              comment := "Error: output type \x27grain\x27 needs the grain parameter\n" },
            st, [])
  else if truthy output then
    let o := output.getD ""
    if overwrite = false ∧ st.files.contains o = true then
      some ({ ret with comment := "No execution needed. File " ++ o ++ " already set" },
            st, [Effect.isfileProbe o])
    else if ctx.test = true then
      some ({ ret with
              result := none
              comment := "Ticket generation would be executed, storing result in file: " ++ o },
            st, if overwrite = false then [Effect.isfileProbe o] else [])
    else
      ticketExec ctx st name output grain key salt
        (if overwrite = false then [Effect.isfileProbe o] else [])
  else if ctx.test = true then
    some ({ ret with
            result := none
            comment := "Ticket generation would be executed, not storing result" }, st, [])
  else
    ticketExec ctx st name output grain key salt []

/-- generate_cert: generate an icinga2 certificate and key on the
client.  Short-circuits when both files exist; on a non-zero executor
return code the record is returned untouched (result stays true). -/
def generate_cert (ctx : Ctx) (st : SysState) (name : String) :
    Option (StateRet × SysState × List Effect) :=
  let ret : StateRet := { name := name, changes := [], result := some true, comment := "" }
  let cert := ctx.certs_path ++ name ++ ".crt"
  let key := ctx.certs_path ++ name ++ ".key"
  let fx0 := if st.files.contains cert = true then
    [Effect.isfileProbe cert, Effect.isfileProbe key] else [Effect.isfileProbe cert]
  if st.files.contains cert = true ∧ st.files.contains key = true then
    some ({ ret with comment :=
            "No execution needed. Cert: " ++ cert ++ " and key: " ++ key ++ " already generated." },
          st, fx0)
  else if ctx.test = true then
    some ({ ret with
            result := none
            comment := "Certificate and key generation would be executed" }, st, fx0)
  else
    let cs := ctx.icinga2_generate_cert name
    let fx := fx0 ++ [Effect.execGenerateCert name]
    if cs.retcode = 0 then
      some ({ ret with
              comment := "Certificate and key generated"
              changes := [("cert", "Executed. Certificate saved: " ++ cert),
                          ("key", "Executed. Key saved: " ++ key)] }, st, fx)
    else
      some (ret, st, fx)

/-- save_cert: save the certificate on the parent icinga2 node.  On a
non-zero executor return code the record is returned untouched. -/
def save_cert (ctx : Ctx) (st : SysState) (name parent : String) :
    Option (StateRet × SysState × List Effect) :=
  let ret : StateRet := { name := name, changes := [], result := some true, comment := "" }
  let cert := ctx.certs_path ++ "trusted-parent.crt"
  let fx0 := [Effect.isfileProbe cert]
  if st.files.contains cert = true then
    some ({ ret with comment := "No execution needed. Cert: " ++ cert ++ " already saved." },
          st, fx0)
  else if ctx.test = true then
    some ({ ret with
            result := none
            comment := "Certificate save for icinga2 parent would be executed" }, st, fx0)
  else
    let cs := ctx.icinga2_save_cert name parent
    let fx := fx0 ++ [Effect.execSaveCert name parent]
    if cs.retcode = 0 then
      some ({ ret with
              comment := "Certificate for icinga2 parent saved"
              changes := [("cert", "Executed. Certificate saved: " ++ cert)] }, st, fx)
    else
      some (ret, st, fx)

/-- request_cert: request the CA certificate from the parent icinga2
node.  This is one of the two actions that map a non-zero executor
return code to a failed record carrying the captured stdout. -/
def request_cert (ctx : Ctx) (st : SysState) (name parent ticket port : String) :
    Option (StateRet × SysState × List Effect) :=
  let ret : StateRet := { name := name, changes := [], result := some true, comment := "" }
  let cert := ctx.certs_path ++ "ca.crt"
  let fx0 := [Effect.isfileProbe cert]
  if st.files.contains cert = true then
    some ({ ret with comment := "No execution needed. Cert: " ++ cert ++ " already exists." },
          st, fx0)
  else if ctx.test = true then
    some ({ ret with
            result := none
            comment := "Certificate request from icinga2 parent would be executed" }, st, fx0)
  else
    let cr := ctx.icinga2_request_cert name parent ticket port
    let fx := fx0 ++ [Effect.execRequestCert name parent ticket port]
    if cr.retcode = 0 then
      some ({ ret with
              comment := "Certificate request from icinga2 parent executed"
              changes := [("cert", "Executed. Certificate requested: " ++ cert)] }, st, fx)
    else
      some ({ ret with
              result := some false
              comment := "FAILED. Certificate requested failed with output: " ++ cr.stdout },
            st, fx)

/-- node_setup: set up the icinga2 node.  The source computes both the
cert-original and key-original paths but probes the cert path twice in
its satisfaction check (the key path is never probed); the misspelling
outpu in the failure message is preserved from the source. -/
def node_setup (ctx : Ctx) (st : SysState) (name parent ticket : String) :
    Option (StateRet × SysState × List Effect) :=
  let ret : StateRet := { name := name, changes := [], result := some true, comment := "" }
  let cert := ctx.certs_path ++ name ++ ".crt.orig"
  let key := ctx.certs_path ++ name ++ ".key.orig"
  let fx0 := if st.files.contains cert = true then
    [Effect.isfileProbe cert, Effect.isfileProbe cert] else [Effect.isfileProbe cert]
  if st.files.contains cert = true ∧ st.files.contains cert = true then
    some ({ ret with comment := "No execution needed. Node already configured." }, st, fx0)
  else if ctx.test = true then
    some ({ ret with result := none, comment := "Node setup will be executed." }, st, fx0)
  else
    let ns := ctx.icinga2_node_setup name parent ticket
    let fx := fx0 ++ [Effect.execNodeSetup name parent ticket]
    if ns.retcode = 0 then
      some ({ ret with
              comment := "Node setup executed."
              changes := [("cert", "Node setup finished successfully.")] }, st, fx)
    else
      some ({ ret with
              result := some false
              comment := "FAILED. Node setup failed with outpu: " ++ ns.stdout }, st, fx)

/-- The five state functions of the module, with their arguments. -/
inductive Action where
  | generate_ticket (name : String) (output grain key : Option String)
      (overwrite : Bool) (salt : Option String)
  | generate_cert (name : String)
  | save_cert (name parent : String)
  | request_cert (name parent ticket port : String)
  | node_setup (name parent ticket : String)

/-- Dispatch an action to its state function. -/
def run (ctx : Ctx) (st : SysState) : Action → Option (StateRet × SysState × List Effect)
  | Action.generate_ticket n o g k ow sa => generate_ticket ctx st n o g k ow sa
  | Action.generate_cert n => generate_cert ctx st n
  | Action.save_cert n p => save_cert ctx st n p
  | Action.request_cert n p t po => request_cert ctx st n p t po
  | Action.node_setup n p t => node_setup ctx st n p t

/-- Did the caller request forced overwrite?  Only generate_ticket has
an overwrite parameter; the other actions never overwrite. -/
def overwriteRequested : Action → Bool
  | Action.generate_ticket _ _ _ _ ow _ => ow
  | _ => false

/-- The one usage error of the module: generate_ticket with output
grain but no (truthy) grain name. -/
def usageError : Action → Prop
  | Action.generate_ticket _ output grain _ _ _ =>
      output = some "grain" ∧ ¬ truthy grain
  | _ => False

instance : DecidablePred usageError := fun a => by
  cases a <;> (unfold usageError; infer_instance)

/-- The satisfaction predicate of each action, exactly as the source
evaluates it: is the desired end state already present?  Returns none
when the evaluation itself would raise (membership test on an integer
grain value). -/
def satisfied (ctx : Ctx) (st : SysState) : Action → Option Bool
  | Action.generate_ticket _ output grain key _ _ =>
    if output = some "grain" then
      if truthy grain ∧ ¬ truthy key then
        some ((grainsLs st.grains).contains (grain.getD ""))
      else if truthy grain then
        let inLs := (grainsLs st.grains).contains (grain.getD "")
        let gv := if inLs = true then grainsGet st.grains (grain.getD "") else PyVal.dict []
        pyContains (key.getD "") gv
      else
        some false
    else if truthy output then
      some (st.files.contains (output.getD ""))
    else
      some false
  | Action.generate_cert name =>
    some ((st.files.contains (ctx.certs_path ++ name ++ ".crt")) &&
          (st.files.contains (ctx.certs_path ++ name ++ ".key")))
  | Action.save_cert _ _ => some (st.files.contains (ctx.certs_path ++ "trusted-parent.crt"))
  | Action.request_cert _ _ _ _ => some (st.files.contains (ctx.certs_path ++ "ca.crt"))
  | Action.node_setup name _ _ => some (st.files.contains (ctx.certs_path ++ name ++ ".crt.orig"))

/-- The subject (name argument) of an action. -/
def subjectOf : Action → String
  | Action.generate_ticket n _ _ _ _ _ => n
  | Action.generate_cert n => n
  | Action.save_cert n _ => n
  | Action.request_cert n _ _ _ => n
  | Action.node_setup n _ _ => n

/-- A stub context whose five executor operations all return the same
fixed command result, with the standard certificate directory. -/
def stubCtx (test : Bool) (res : CmdResult) : Ctx :=
  { test := test
    certs_path := "/var/lib/icinga2/certs/"
    icinga2_generate_ticket := fun _ _ => res
    icinga2_generate_cert := fun _ => res
    icinga2_save_cert := fun _ _ => res
    icinga2_request_cert := fun _ _ _ _ => res
    icinga2_node_setup := fun _ _ _ => res }

/-- A successful executor result carrying a ticket text. -/
def okRes : CmdResult := { stdout := "TICKET", retcode := 0 }

/-- A failed executor result: return code 1, captured output boom. -/
def boomRes : CmdResult := { stdout := "boom", retcode := 1 }

/-- The empty world: no files, no grains. -/
def emptySt : SysState := { files := [], grains := [] }

/-- Claim C4: generate_ticket called with output grain and a falsy
grain name returns a failed record immediately, for every context
(any dry-run flag), any overwrite flag, with the state untouched and an
empty effect trace, hence before any filesystem probe, key-value-store
access or executor call. -/
theorem claim_C4_grain_usage_error (ctx : Ctx) (st : SysState)
    (n : String) (g k : Option String) (ow : Bool) (sa : Option String)
    (hg : ¬ truthy g) :
    run ctx st (Action.generate_ticket n (some "grain") g k ow sa) =
      some ({ name := n
              changes := []
              result := some false
              comment := "Error: output type \x27grain\x27 needs the grain parameter\n" },
            st, []) := by
  simp [run, generate_ticket, hg]

/-- Witness for claim C4 at a concrete input: grain name absent, dry
run enabled, overwrite enabled. -/
theorem claim_C4_witness :
    ¬ truthy none ∧
    run (stubCtx true okRes) emptySt
        (Action.generate_ticket "domain.tld" (some "grain") none none true none) =
      some ({ name := "domain.tld"
              changes := []
              result := some false
              comment := "Error: output type \x27grain\x27 needs the grain parameter\n" },
            emptySt, []) :=
  ⟨by decide, claim_C4_grain_usage_error (stubCtx true okRes) emptySt
      "domain.tld" none none true none (by decide)⟩

/-- Claim C8: with the CA certificate absent, dry-run disabled and an
executor stub answering retcode 1 and stdout boom, request_cert returns
a failed record whose message carries the boom output. -/
theorem claim_C8_request_cert_boom :
    run (stubCtx false boomRes) emptySt
        (Action.request_cert "minion.example.com" "master.example.com" "TICKET" "5665") =
      some ({ name := "minion.example.com"
              changes := []
              result := some false
              comment := "FAILED. Certificate requested failed with output: boom" },
            emptySt,
            [Effect.isfileProbe "/var/lib/icinga2/certs/ca.crt",
             Effect.execRequestCert "minion.example.com" "master.example.com" "TICKET" "5665"]) := by
  rfl

/-- Counterexample to claim C1: with the certificate and key files
absent, dry-run disabled, and the executor stub returning retcode 1
with stdout boom, generate_cert invokes the executor (visible in the
trace) and the executor result is non-zero, yet the returned record is
a success with an empty message that does not carry the output — so the
claim that every action maps a non-zero return code to a failure record
carrying the stdout text is false. -/
theorem claim_C1_counterexample :
    boomRes.retcode ≠ 0 ∧
    run (stubCtx false boomRes) emptySt (Action.generate_cert "node1") =
      some ({ name := "node1", changes := [], result := some true, comment := "" },
            emptySt,
            [Effect.isfileProbe "/var/lib/icinga2/certs/node1.crt",
             Effect.execGenerateCert "node1"]) :=
  ⟨by decide, rfl⟩

/-- Claim C1 as amended: only request_cert and node_setup map a
non-zero executor return code to a failure record whose message carries
the captured stdout; both are proved here in full, for every context
and state that reach execution. -/
theorem claim_C1_amended :
    (∀ (ctx : Ctx) (st : SysState) (n p t po : String),
      ctx.test = false →
      st.files.contains (ctx.certs_path ++ "ca.crt") = false →
      (ctx.icinga2_request_cert n p t po).retcode ≠ 0 →
      run ctx st (Action.request_cert n p t po) =
        some ({ name := n
                changes := []
                result := some false
                comment := "FAILED. Certificate requested failed with output: " ++
                  (ctx.icinga2_request_cert n p t po).stdout },
              st, [Effect.isfileProbe (ctx.certs_path ++ "ca.crt"),
                   Effect.execRequestCert n p t po])) ∧
    (∀ (ctx : Ctx) (st : SysState) (n p t : String),
      ctx.test = false →
      st.files.contains (ctx.certs_path ++ n ++ ".crt.orig") = false →
      (ctx.icinga2_node_setup n p t).retcode ≠ 0 →
      run ctx st (Action.node_setup n p t) =
        some ({ name := n
                changes := []
                result := some false
                comment := "FAILED. Node setup failed with outpu: " ++
                  (ctx.icinga2_node_setup n p t).stdout },
              st, [Effect.isfileProbe (ctx.certs_path ++ n ++ ".crt.orig"),
                   Effect.execNodeSetup n p t])) := by
  constructor
  · intro ctx st n p t po htest hfile hrc
    have hfile2 : ctx.certs_path ++ "ca.crt" ∉ st.files := by simpa using hfile
    simp [run, request_cert, htest, hfile2, hrc]
  · intro ctx st n p t htest hfile hrc
    have hfile2 : ctx.certs_path ++ n ++ ".crt.orig" ∉ st.files := by simpa using hfile
    simp [run, node_setup, htest, hfile2, hrc]

/-- Witness for the amended claim C1 at a concrete input, for both
request_cert and node_setup against the boom executor stub. -/
theorem claim_C1_amended_witness :
    ((stubCtx false boomRes).icinga2_request_cert "n" "p" "T" "5665").retcode ≠ 0 ∧
    run (stubCtx false boomRes) emptySt (Action.request_cert "n" "p" "T" "5665") =
      some ({ name := "n"
              changes := []
              result := some false
              comment := "FAILED. Certificate requested failed with output: boom" },
            emptySt,
            [Effect.isfileProbe "/var/lib/icinga2/certs/ca.crt",
             Effect.execRequestCert "n" "p" "T" "5665"]) ∧
    ((stubCtx false boomRes).icinga2_node_setup "n" "p" "T").retcode ≠ 0 ∧
    run (stubCtx false boomRes) emptySt (Action.node_setup "n" "p" "T") =
      some ({ name := "n"
              changes := []
              result := some false
              comment := "FAILED. Node setup failed with outpu: boom" },
            emptySt,
            [Effect.isfileProbe "/var/lib/icinga2/certs/n.crt.orig",
             Effect.execNodeSetup "n" "p" "T"]) :=
  ⟨by decide,
   claim_C1_amended.1 (stubCtx false boomRes) emptySt "n" "p" "T" "5665" rfl (by decide) (by decide),
   by decide,
   claim_C1_amended.2 (stubCtx false boomRes) emptySt "n" "p" "T" rfl (by decide) (by decide)⟩

/-- Claim C10: when generate_cert or save_cert reaches execution and
the executor returns a non-zero code, the record is returned untouched:
success, empty changes, empty message — the failure is swallowed. -/
theorem claim_C10_silent_executor_failure :
    (∀ (ctx : Ctx) (st : SysState) (n : String),
      ctx.test = false →
      satisfied ctx st (Action.generate_cert n) = some false →
      (ctx.icinga2_generate_cert n).retcode ≠ 0 →
      ∃ fx, run ctx st (Action.generate_cert n) =
        some ({ name := n, changes := [], result := some true, comment := "" }, st, fx)) ∧
    (∀ (ctx : Ctx) (st : SysState) (n p : String),
      ctx.test = false →
      satisfied ctx st (Action.save_cert n p) = some false →
      (ctx.icinga2_save_cert n p).retcode ≠ 0 →
      ∃ fx, run ctx st (Action.save_cert n p) =
        some ({ name := n, changes := [], result := some true, comment := "" }, st, fx)) := by
  constructor
  · intro ctx st n htest hsat hrc
    by_cases hA : (ctx.certs_path ++ n ++ ".crt") ∈ st.files
    · by_cases hB : (ctx.certs_path ++ n ++ ".key") ∈ st.files
      · simp [satisfied, hA, hB] at hsat
      · refine ⟨[Effect.isfileProbe (ctx.certs_path ++ n ++ ".crt"),
                 Effect.isfileProbe (ctx.certs_path ++ n ++ ".key"),
                 Effect.execGenerateCert n], ?_⟩
        simp [run, generate_cert, hA, hB, htest, hrc]
    · refine ⟨[Effect.isfileProbe (ctx.certs_path ++ n ++ ".crt"),
               Effect.execGenerateCert n], ?_⟩
      simp [run, generate_cert, hA, htest, hrc]
  · intro ctx st n p htest hsat hrc
    have h2 : ctx.certs_path ++ "trusted-parent.crt" ∉ st.files := by
      simpa [satisfied] using hsat
    refine ⟨[Effect.isfileProbe (ctx.certs_path ++ "trusted-parent.crt"),
             Effect.execSaveCert n p], ?_⟩
    simp [run, save_cert, h2, htest, hrc]

/-- Witness for claim C10 at a concrete input: empty world, failing
executor stub, for both generate_cert and save_cert. -/
theorem claim_C10_witness :
    satisfied (stubCtx false boomRes) emptySt (Action.generate_cert "n") = some false ∧
    (∃ fx, run (stubCtx false boomRes) emptySt (Action.generate_cert "n") =
      some ({ name := "n", changes := [], result := some true, comment := "" }, emptySt, fx)) ∧
    satisfied (stubCtx false boomRes) emptySt (Action.save_cert "n" "p") = some false ∧
    (∃ fx, run (stubCtx false boomRes) emptySt (Action.save_cert "n" "p") =
      some ({ name := "n", changes := [], result := some true, comment := "" }, emptySt, fx)) :=
  ⟨by decide,
   claim_C10_silent_executor_failure.1 (stubCtx false boomRes) emptySt "n" rfl (by decide) (by decide),
   by decide,
   claim_C10_silent_executor_failure.2 (stubCtx false boomRes) emptySt "n" "p" rfl (by decide) (by decide)⟩

/-- Claim C7 against the source: with the output file already present,
overwrite enabled and dry-run disabled, generate_ticket does invoke the
executor but then raises AttributeError at salt.utils.files.fopen (the
parameter salt shadows the imported salt package), so no record is
returned at all — modelled as none (first conjunct).  The grain-output
instance of the same claim does hold: with the grain already set and
overwrite enabled the executor runs and changes is populated (second
conjunct). -/
theorem claim_C7_overwrite_file_crash :
    run (stubCtx false okRes)
        { files := ["/tmp/query_id.txt"], grains := [] }
        (Action.generate_ticket "domain.tld" (some "/tmp/query_id.txt")
          none none true (some "SHARED_SECRET")) = none ∧
    run (stubCtx false okRes)
        { files := [], grains := [("icinga2_ticket", PyVal.str "OLD")] }
        (Action.generate_ticket "domain.tld" (some "grain")
          (some "icinga2_ticket") none true none) =
      some ({ name := "domain.tld"
              changes := [("ticket", "Executed. Output into grain: icinga2_ticket")]
              result := some true
              comment := "TICKET" },
            { files := [], grains := [("icinga2_ticket", PyVal.str "TICKET")] },
            [Effect.execGenerateTicket "domain.tld" none,
             Effect.grainsSetval "icinga2_ticket" (PyVal.str "TICKET")]) :=
  ⟨rfl, rfl⟩

/-- Shared short-circuit lemma: when forced overwrite was not requested
and the satisfaction predicate of the action is already true, the run
returns success with empty changes, a message starting with the words
No execution needed., an unchanged state, and no executor call. -/
theorem run_short_circuit (ctx : Ctx) (st : SysState) (a : Action)
    (how : overwriteRequested a = false)
    (hsat : satisfied ctx st a = some true) :
    ∃ rest fx,
      run ctx st a =
        some ({ name := subjectOf a, changes := [], result := some true,
                comment := "No execution needed." ++ rest }, st, fx) ∧
      fx.all (fun e => !e.isExec) = true := by
  cases a with
  | generate_ticket n o g k ow sa =>
    have how2 : ow = false := how
    subst how2
    by_cases ho : o = some "grain"
    · by_cases h2 : truthy g
      · by_cases hk : truthy k
        · by_cases hin : g.getD "" ∈ grainsLs st.grains
          · have hc : pyContains (k.getD "") (grainsGet st.grains (g.getD "")) = some true := by
              simpa [satisfied, ho, h2, hk, hin] using hsat
            refine ⟨" Grain " ++ g.getD "" ++ ":" ++ k.getD "" ++ " already set",
                    [Effect.grainsLsRead, Effect.grainsGetRead (g.getD "")], ?_, rfl⟩
            simp [run, generate_ticket, subjectOf, ho, h2, hk, hin, hc]
            rfl
          · exfalso
            have hfalse : pyContains (k.getD "") (PyVal.dict []) = some true := by
              simpa [satisfied, ho, h2, hk, hin] using hsat
            simp [pyContains] at hfalse
        · have hc : g.getD "" ∈ grainsLs st.grains := by
            simpa [satisfied, ho, h2, hk] using hsat
          refine ⟨" Grain " ++ g.getD "" ++ " already set", [Effect.grainsLsRead], ?_, rfl⟩
          simp [run, generate_ticket, subjectOf, ho, h2, hk, hc]
          rfl
      · exact absurd hsat (by simp [satisfied, ho, h2])
    · by_cases h3 : truthy o
      · have hc : o.getD "" ∈ st.files := by
          simpa [satisfied, ho, h3] using hsat
        refine ⟨" File " ++ o.getD "" ++ " already set", [Effect.isfileProbe (o.getD "")], ?_, rfl⟩
        simp [run, generate_ticket, subjectOf, ho, h3, hc]
        rfl
      · exact absurd hsat (by simp [satisfied, ho, h3])
  | generate_cert n =>
    have hAB : ctx.certs_path ++ n ++ ".crt" ∈ st.files ∧
               ctx.certs_path ++ n ++ ".key" ∈ st.files := by
      simpa [satisfied] using hsat
    refine ⟨" Cert: " ++ (ctx.certs_path ++ n ++ ".crt") ++ " and key: " ++
              (ctx.certs_path ++ n ++ ".key") ++ " already generated.",
            [Effect.isfileProbe (ctx.certs_path ++ n ++ ".crt"),
             Effect.isfileProbe (ctx.certs_path ++ n ++ ".key")], ?_, rfl⟩
    simp [run, generate_cert, subjectOf, hAB.1, hAB.2]
    rfl
  | save_cert n p =>
    have hA : ctx.certs_path ++ "trusted-parent.crt" ∈ st.files := by
      simpa [satisfied] using hsat
    refine ⟨" Cert: " ++ (ctx.certs_path ++ "trusted-parent.crt") ++ " already saved.",
            [Effect.isfileProbe (ctx.certs_path ++ "trusted-parent.crt")], ?_, rfl⟩
    simp [run, save_cert, subjectOf, hA]
    rfl
  | request_cert n p t po =>
    have hA : ctx.certs_path ++ "ca.crt" ∈ st.files := by
      simpa [satisfied] using hsat
    refine ⟨" Cert: " ++ (ctx.certs_path ++ "ca.crt") ++ " already exists.",
            [Effect.isfileProbe (ctx.certs_path ++ "ca.crt")], ?_, rfl⟩
    simp [run, request_cert, subjectOf, hA]
    rfl
  | node_setup n p t =>
    have hA : ctx.certs_path ++ n ++ ".crt.orig" ∈ st.files := by
      simpa [satisfied] using hsat
    refine ⟨" Node already configured.",
            [Effect.isfileProbe (ctx.certs_path ++ n ++ ".crt.orig"),
             Effect.isfileProbe (ctx.certs_path ++ n ++ ".crt.orig")], ?_, rfl⟩
    simp [run, node_setup, subjectOf, hA]

/-- Claim C3: if the satisfaction predicate of an action is already
true and forced overwrite was not requested, the action returns success
with empty changes and a message starting with No execution needed.,
leaving the state unchanged and never invoking the command executor. -/
theorem claim_C3_already_satisfied (ctx : Ctx) (st : SysState) (a : Action)
    (how : overwriteRequested a = false)
    (hsat : satisfied ctx st a = some true) :
    ∃ rest fx,
      run ctx st a =
        some ({ name := subjectOf a, changes := [], result := some true,
                comment := "No execution needed." ++ rest }, st, fx) ∧
      fx.all (fun e => !e.isExec) = true :=
  run_short_circuit ctx st a how hsat

/-- Witness for claim C3 at a concrete input: save_cert with the
trusted-parent certificate already present. -/
theorem claim_C3_witness :
    overwriteRequested (Action.save_cert "n" "p") = false ∧
    satisfied (stubCtx false okRes)
        { files := ["/var/lib/icinga2/certs/trusted-parent.crt"], grains := [] }
        (Action.save_cert "n" "p") = some true ∧
    (∃ rest fx,
      run (stubCtx false okRes)
          { files := ["/var/lib/icinga2/certs/trusted-parent.crt"], grains := [] }
          (Action.save_cert "n" "p") =
        some ({ name := subjectOf (Action.save_cert "n" "p"), changes := [],
                result := some true,
                comment := "No execution needed." ++ rest },
              { files := ["/var/lib/icinga2/certs/trusted-parent.crt"], grains := [] }, fx) ∧
      fx.all (fun e => !e.isExec) = true) :=
  ⟨rfl, by decide,
   claim_C3_already_satisfied (stubCtx false okRes)
     { files := ["/var/lib/icinga2/certs/trusted-parent.crt"], grains := [] }
     (Action.save_cert "n" "p") rfl (by decide)⟩

/-- Claim C6: running an action with overwrite disabled, when a first
invocation has left the world in a state where the satisfaction
predicate holds, yields empty changes on the second invocation. -/
theorem claim_C6_second_run_no_changes (ctx : Ctx) (st : SysState) (a : Action)
    (r1 : StateRet) (s1 : SysState) (fx1 : List Effect)
    (how : overwriteRequested a = false)
    (h1 : run ctx st a = some (r1, s1, fx1))
    (hsat : satisfied ctx s1 a = some true) :
    ∃ r2 fx2, run ctx s1 a = some (r2, s1, fx2) ∧ r2.changes = [] := by
  obtain ⟨rest, fx, hrun, -⟩ := run_short_circuit ctx s1 a how hsat
  exact ⟨_, fx, hrun, rfl⟩

/-- Witness for claim C6 at a concrete input: generate_ticket into a
flat grain with overwrite disabled; the first call stores the grain, so
the second call short-circuits with empty changes. -/
theorem claim_C6_witness :
    overwriteRequested
      (Action.generate_ticket "n" (some "grain") (some "g") none false none) = false ∧
    run (stubCtx false okRes) emptySt
        (Action.generate_ticket "n" (some "grain") (some "g") none false none) =
      some ({ name := "n"
              changes := [("ticket", "Executed. Output into grain: g")]
              result := some true
              comment := "TICKET" },
            { files := [], grains := [("g", PyVal.str "TICKET")] },
            [Effect.grainsLsRead, Effect.execGenerateTicket "n" none,
             Effect.grainsSetval "g" (PyVal.str "TICKET")]) ∧
    satisfied (stubCtx false okRes) { files := [], grains := [("g", PyVal.str "TICKET")] }
        (Action.generate_ticket "n" (some "grain") (some "g") none false none) = some true ∧
    (∃ r2 fx2,
      run (stubCtx false okRes) { files := [], grains := [("g", PyVal.str "TICKET")] }
          (Action.generate_ticket "n" (some "grain") (some "g") none false none) =
        some (r2, { files := [], grains := [("g", PyVal.str "TICKET")] }, fx2) ∧
      r2.changes = []) :=
  ⟨rfl, rfl, by decide,
   claim_C6_second_run_no_changes (stubCtx false okRes) emptySt
     (Action.generate_ticket "n" (some "grain") (some "g") none false none)
     _ _ _ rfl rfl (by decide)⟩

/-- Claim C2: with the dry-run flag set, an action that is neither
short-circuited by its satisfaction predicate (under disabled
overwrite) nor rejected as a usage error returns a would-change record
(result none) with empty changes, leaves the state unchanged, and its
effect trace contains no executor call and no store write. -/
theorem claim_C2_dry_run_pure (ctx : Ctx) (st : SysState) (a : Action)
    (htest : ctx.test = true)
    (hue : ¬ usageError a)
    (hns : overwriteRequested a = true ∨ satisfied ctx st a = some false) :
    ∃ r fx, run ctx st a = some (r, st, fx) ∧ r.result = none ∧ r.changes = [] ∧
      fx.all (fun e => !(e.isExec || e.isStoreWrite)) = true := by
  cases a with
  | generate_ticket n o g k ow sa =>
    by_cases ho : o = some "grain"
    · by_cases h2 : truthy g
      · by_cases hk : truthy k
        · by_cases how : ow = false
          · subst how
            have hsat : satisfied ctx st
                (Action.generate_ticket n o g k false sa) = some false := by
              rcases hns with h | h
              · exact absurd h (by simp [overwriteRequested])
              · exact h
            by_cases hin : g.getD "" ∈ grainsLs st.grains
            · have hc : pyContains (k.getD "") (grainsGet st.grains (g.getD "")) = some false := by
                simpa [satisfied, ho, h2, hk, hin] using hsat
              refine ⟨{ name := n, changes := [], result := none,
                        comment := "Ticket generation would be executed, storing result in grain: "
                          ++ g.getD "" ++ ":" ++ k.getD "" },
                      [Effect.grainsLsRead, Effect.grainsGetRead (g.getD "")],
                      ?_, rfl, rfl, rfl⟩
              simp [run, generate_ticket, ho, h2, hk, hin, hc, htest]
            · refine ⟨{ name := n, changes := [], result := none,
                        comment := "Ticket generation would be executed, storing result in grain: "
                          ++ g.getD "" ++ ":" ++ k.getD "" },
                      [Effect.grainsLsRead], ?_, rfl, rfl, rfl⟩
              simp [run, generate_ticket, ho, h2, hk, hin, pyContains, htest]
          · have how2 : ow = true := by revert how; cases ow <;> simp
            subst how2
            by_cases hin : g.getD "" ∈ grainsLs st.grains
            · refine ⟨{ name := n, changes := [], result := none,
                        comment := "Ticket generation would be executed, storing result in grain: "
                          ++ g.getD "" ++ ":" ++ k.getD "" },
                      [Effect.grainsLsRead, Effect.grainsGetRead (g.getD "")],
                      ?_, rfl, rfl, rfl⟩
              simp [run, generate_ticket, ho, h2, hk, hin, htest]
            · refine ⟨{ name := n, changes := [], result := none,
                        comment := "Ticket generation would be executed, storing result in grain: "
                          ++ g.getD "" ++ ":" ++ k.getD "" },
                      [Effect.grainsLsRead], ?_, rfl, rfl, rfl⟩
              simp [run, generate_ticket, ho, h2, hk, hin, htest]
        · by_cases how : ow = false
          · subst how
            have hsat : satisfied ctx st
                (Action.generate_ticket n o g k false sa) = some false := by
              rcases hns with h | h
              · exact absurd h (by simp [overwriteRequested])
              · exact h
            have hc : g.getD "" ∉ grainsLs st.grains := by
              simpa [satisfied, ho, h2, hk] using hsat
            refine ⟨{ name := n, changes := [], result := none,
                      comment := "Ticket generation would be executed, storing result in grain: "
                        ++ g.getD "" },
                    [Effect.grainsLsRead], ?_, rfl, rfl, rfl⟩
            simp [run, generate_ticket, ho, h2, hk, hc, htest]
          · have how2 : ow = true := by revert how; cases ow <;> simp
            subst how2
            refine ⟨{ name := n, changes := [], result := none,
                      comment := "Ticket generation would be executed, storing result in grain: "
                        ++ g.getD "" },
                    [], ?_, rfl, rfl, rfl⟩
            simp [run, generate_ticket, ho, h2, hk, htest]
      · exact absurd ⟨ho, h2⟩ hue
    · by_cases h3 : truthy o
      · by_cases how : ow = false
        · subst how
          have hsat : satisfied ctx st
              (Action.generate_ticket n o g k false sa) = some false := by
            rcases hns with h | h
            · exact absurd h (by simp [overwriteRequested])
            · exact h
          have hc : o.getD "" ∉ st.files := by
            simpa [satisfied, ho, h3] using hsat
          refine ⟨{ name := n, changes := [], result := none,
                    comment := "Ticket generation would be executed, storing result in file: "
                      ++ o.getD "" },
                  [Effect.isfileProbe (o.getD "")], ?_, rfl, rfl, rfl⟩
          simp [run, generate_ticket, ho, h3, hc, htest]
        · have how2 : ow = true := by revert how; cases ow <;> simp
          subst how2
          refine ⟨{ name := n, changes := [], result := none,
                    comment := "Ticket generation would be executed, storing result in file: "
                      ++ o.getD "" },
                  [], ?_, rfl, rfl, rfl⟩
          simp [run, generate_ticket, ho, h3, htest]
      · refine ⟨{ name := n, changes := [], result := none,
                  comment := "Ticket generation would be executed, not storing result" },
                [], ?_, rfl, rfl, rfl⟩
        simp [run, generate_ticket, ho, h3, htest]
  | generate_cert n =>
    have hsat : satisfied ctx st (Action.generate_cert n) = some false := by
      rcases hns with h | h
      · exact absurd h (by simp [overwriteRequested])
      · exact h
    by_cases hA : ctx.certs_path ++ n ++ ".crt" ∈ st.files
    · have hB : ctx.certs_path ++ n ++ ".key" ∉ st.files := by
        simpa [satisfied, hA] using hsat
      refine ⟨{ name := n, changes := [], result := none,
                comment := "Certificate and key generation would be executed" },
              [Effect.isfileProbe (ctx.certs_path ++ n ++ ".crt"),
               Effect.isfileProbe (ctx.certs_path ++ n ++ ".key")], ?_, rfl, rfl, rfl⟩
      simp [run, generate_cert, hA, hB, htest]
    · refine ⟨{ name := n, changes := [], result := none,
                comment := "Certificate and key generation would be executed" },
              [Effect.isfileProbe (ctx.certs_path ++ n ++ ".crt")], ?_, rfl, rfl, rfl⟩
      simp [run, generate_cert, hA, htest]
  | save_cert n p =>
    have hsat : satisfied ctx st (Action.save_cert n p) = some false := by
      rcases hns with h | h
      · exact absurd h (by simp [overwriteRequested])
      · exact h
    have hA : ctx.certs_path ++ "trusted-parent.crt" ∉ st.files := by
      simpa [satisfied] using hsat
    refine ⟨{ name := n, changes := [], result := none,
              comment := "Certificate save for icinga2 parent would be executed" },
            [Effect.isfileProbe (ctx.certs_path ++ "trusted-parent.crt")], ?_, rfl, rfl, rfl⟩
    simp [run, save_cert, hA, htest]
  | request_cert n p t po =>
    have hsat : satisfied ctx st (Action.request_cert n p t po) = some false := by
      rcases hns with h | h
      · exact absurd h (by simp [overwriteRequested])
      · exact h
    have hA : ctx.certs_path ++ "ca.crt" ∉ st.files := by
      simpa [satisfied] using hsat
    refine ⟨{ name := n, changes := [], result := none,
              comment := "Certificate request from icinga2 parent would be executed" },
            [Effect.isfileProbe (ctx.certs_path ++ "ca.crt")], ?_, rfl, rfl, rfl⟩
    simp [run, request_cert, hA, htest]
  | node_setup n p t =>
    have hsat : satisfied ctx st (Action.node_setup n p t) = some false := by
      rcases hns with h | h
      · exact absurd h (by simp [overwriteRequested])
      · exact h
    have hA : ctx.certs_path ++ n ++ ".crt.orig" ∉ st.files := by
      simpa [satisfied] using hsat
    refine ⟨{ name := n, changes := [], result := none,
              comment := "Node setup will be executed." },
            [Effect.isfileProbe (ctx.certs_path ++ n ++ ".crt.orig")], ?_, rfl, rfl, rfl⟩
    simp [run, node_setup, hA, htest]

/-- Witness for claim C2 at a concrete input: generate_cert under the
dry-run flag with no certificate present. -/
theorem claim_C2_witness :
    (stubCtx true okRes).test = true ∧
    ¬ usageError (Action.generate_cert "node1") ∧
    satisfied (stubCtx true okRes) emptySt (Action.generate_cert "node1") = some false ∧
    (∃ r fx, run (stubCtx true okRes) emptySt (Action.generate_cert "node1") =
        some (r, emptySt, fx) ∧ r.result = none ∧ r.changes = [] ∧
      fx.all (fun e => !(e.isExec || e.isStoreWrite)) = true) :=
  ⟨rfl, by decide, by decide,
   claim_C2_dry_run_pure (stubCtx true okRes) emptySt (Action.generate_cert "node1")
     rfl (by decide) (Or.inr (by decide))⟩

/-- Updating an association list binds the written key to the new
value. -/
theorem lookup_setAssoc_self (m : List (String × PyVal)) (k : String) (v : PyVal) :
    (setAssoc m k v).lookup k = some v := by
  induction m with
  | nil => simp [setAssoc]
  | cons h t ih =>
    obtain ⟨k0, v0⟩ := h
    by_cases hk : k0 = k
    · subst hk
      simp [setAssoc]
    · have hb : (k == k0) = false := beq_eq_false_iff_ne.mpr (Ne.symm hk)
      simp [setAssoc, hk, List.lookup, hb, ih]

/-- Updating an association list leaves every other key unchanged. -/
theorem lookup_setAssoc_of_ne (m : List (String × PyVal)) (k : String) (v : PyVal)
    (k2 : String) (h : k2 ≠ k) :
    (setAssoc m k v).lookup k2 = m.lookup k2 := by
  have hb : (k2 == k) = false := beq_eq_false_iff_ne.mpr h
  induction m with
  | nil => simp [setAssoc, List.lookup, hb]
  | cons hd t ih =>
    obtain ⟨k0, v0⟩ := hd
    by_cases hk : k0 = k
    · subst hk
      simp [setAssoc, List.lookup, hb]
    · simp [setAssoc, hk, List.lookup, ih]

/-- Claim C5: generate_ticket into a nested grain key that reaches
execution performs a read-modify-write: the stored grain value is the
previous mapping (empty when the grain was absent) with the sub-key
bound to the new ticket text and all other bindings preserved. -/
theorem claim_C5_nested_grain_merge (ctx : Ctx) (st : SysState)
    (n gname kname : String) (ow : Bool) (sa : Option String)
    (m : List (String × PyVal))
    (hg : gname ≠ "") (hk : kname ≠ "")
    (htest : ctx.test = false)
    (hcur : (if gname ∈ grainsLs st.grains then grainsGet st.grains gname
             else PyVal.dict []) = PyVal.dict m)
    (hns : ow = true ∨ pyContains kname (PyVal.dict m) = some false) :
    ∃ r fx,
      run ctx st (Action.generate_ticket n (some "grain") (some gname) (some kname) ow sa) =
        some (r,
          { st with grains := (setAssoc st.grains gname
              (PyVal.dict (setAssoc m kname
                (PyVal.str (ctx.icinga2_generate_ticket n sa).stdout)))) }, fx) ∧
      r.changes = [("ticket", "Executed. Output into grain: " ++ gname ++ ":" ++ kname)] ∧
      (setAssoc m kname (PyVal.str (ctx.icinga2_generate_ticket n sa).stdout)).lookup kname =
        some (PyVal.str (ctx.icinga2_generate_ticket n sa).stdout) ∧
      (∀ k2, k2 ≠ kname →
        (setAssoc m kname (PyVal.str (ctx.icinga2_generate_ticket n sa).stdout)).lookup k2 =
          m.lookup k2) := by
  have h2 : truthy (some gname) := hg
  have hkt : truthy (some kname) := hk
  by_cases hin : gname ∈ grainsLs st.grains
  · have hgv : grainsGet st.grains gname = PyVal.dict m := by
      simpa [hin] using hcur
    refine ⟨{ name := n
              changes := [("ticket", "Executed. Output into grain: " ++ gname ++ ":" ++ kname)]
              result := some true
              comment := if (ctx.icinga2_generate_ticket n sa).retcode = 0 then
                (ctx.icinga2_generate_ticket n sa).stdout else "" },
            [Effect.grainsLsRead, Effect.grainsGetRead gname,
             Effect.execGenerateTicket n sa,
             Effect.grainsLsRead, Effect.grainsGetRead gname,
             Effect.grainsSetval gname (PyVal.dict (setAssoc m kname
               (PyVal.str (ctx.icinga2_generate_ticket n sa).stdout)))],
            ?_, rfl, lookup_setAssoc_self m kname _,
            fun k2 hne => lookup_setAssoc_of_ne m kname _ k2 hne⟩
    rcases hns with how | hpc
    · subst how
      simp [run, generate_ticket, ticketExec, pySetItem, h2, hkt, hin, hgv, htest]
    · by_cases how : ow = false
      · subst how
        simp [run, generate_ticket, ticketExec, pySetItem, h2, hkt, hin, hgv, hpc, htest]
      · have how2 : ow = true := by revert how; cases ow <;> simp
        subst how2
        simp [run, generate_ticket, ticketExec, pySetItem, h2, hkt, hin, hgv, htest]
  · have hm : m = [] := by
      have := hcur
      simp [hin] at this
      exact this
    subst hm
    refine ⟨{ name := n
              changes := [("ticket", "Executed. Output into grain: " ++ gname ++ ":" ++ kname)]
              result := some true
              comment := if (ctx.icinga2_generate_ticket n sa).retcode = 0 then
                (ctx.icinga2_generate_ticket n sa).stdout else "" },
            [Effect.grainsLsRead,
             Effect.execGenerateTicket n sa,
             Effect.grainsLsRead,
             Effect.grainsSetval gname (PyVal.dict (setAssoc [] kname
               (PyVal.str (ctx.icinga2_generate_ticket n sa).stdout)))],
            ?_, rfl, lookup_setAssoc_self [] kname _,
            fun k2 hne => lookup_setAssoc_of_ne [] kname _ k2 hne⟩
    by_cases how : ow = false
    · subst how
      simp [run, generate_ticket, ticketExec, pySetItem, pyContains, h2, hkt, hin, htest]
    · have how2 : ow = true := by revert how; cases ow <;> simp
      subst how2
      simp [run, generate_ticket, ticketExec, pySetItem, h2, hkt, hin, htest]


/-- Witness for claim C5 at the concrete instance named in the claim:
existing grain value binding a to 1, sub-key b, new ticket TICKET; the
stored value binds a to 1 and b to TICKET. -/
theorem claim_C5_witness :
    ("g" : String) ≠ "" ∧ ("b" : String) ≠ "" ∧
    (stubCtx false okRes).test = false ∧
    (if "g" ∈ grainsLs [("g", PyVal.dict [("a", PyVal.int 1)])] then
       grainsGet [("g", PyVal.dict [("a", PyVal.int 1)])] "g"
     else PyVal.dict []) = PyVal.dict [("a", PyVal.int 1)] ∧
    (∃ r fx,
      run (stubCtx false okRes)
          { files := [], grains := [("g", PyVal.dict [("a", PyVal.int 1)])] }
          (Action.generate_ticket "n" (some "grain") (some "g") (some "b") true none) =
        some (r,
              { files := []
                grains := [("g", PyVal.dict [("a", PyVal.int 1), ("b", PyVal.str "TICKET")])] },
              fx) ∧
      r.changes = [("ticket", "Executed. Output into grain: g:b")] ∧
      ([("a", PyVal.int 1), ("b", PyVal.str "TICKET")] : List (String × PyVal)).lookup "b" =
        some (PyVal.str "TICKET") ∧
      (∀ k2, k2 ≠ "b" →
        ([("a", PyVal.int 1), ("b", PyVal.str "TICKET")] : List (String × PyVal)).lookup k2 =
          ([("a", PyVal.int 1)] : List (String × PyVal)).lookup k2)) :=
  ⟨by decide, by decide, rfl, rfl,
   claim_C5_nested_grain_merge (stubCtx false okRes)
     { files := [], grains := [("g", PyVal.dict [("a", PyVal.int 1)])] }
     "n" "g" "b" true none [("a", PyVal.int 1)]
     (by decide) (by decide) rfl rfl (Or.inl rfl)⟩

/-- Claim C9: node_setup reads the filesystem only through the
existence of the certificate-original file; two states agreeing on that
file (in particular two states differing only in the key-original file)
produce the same result record and the same effect trace, the state
passing through untouched. -/
theorem claim_C9_node_setup_ignores_key_file (ctx : Ctx) (s1 s2 : SysState)
    (n p t : String)
    (hfiles : ((ctx.certs_path ++ n ++ ".crt.orig") ∈ s1.files ↔
               (ctx.certs_path ++ n ++ ".crt.orig") ∈ s2.files)) :
    ∃ r fx, run ctx s1 (Action.node_setup n p t) = some (r, s1, fx) ∧
            run ctx s2 (Action.node_setup n p t) = some (r, s2, fx) := by
  by_cases hc : (ctx.certs_path ++ n ++ ".crt.orig") ∈ s1.files
  · have hc2 := hfiles.mp hc
    refine ⟨{ name := n, changes := [], result := some true,
              comment := "No execution needed. Node already configured." },
            [Effect.isfileProbe (ctx.certs_path ++ n ++ ".crt.orig"),
             Effect.isfileProbe (ctx.certs_path ++ n ++ ".crt.orig")], ?_, ?_⟩
    · simp [run, node_setup, hc]
    · simp [run, node_setup, hc2]
  · have hc2 : (ctx.certs_path ++ n ++ ".crt.orig") ∉ s2.files := fun h => hc (hfiles.mpr h)
    by_cases ht : ctx.test = true
    · refine ⟨{ name := n, changes := [], result := none,
                comment := "Node setup will be executed." },
              [Effect.isfileProbe (ctx.certs_path ++ n ++ ".crt.orig")], ?_, ?_⟩
      · simp [run, node_setup, hc, ht]
      · simp [run, node_setup, hc2, ht]
    · by_cases hr : (ctx.icinga2_node_setup n p t).retcode = 0
      · refine ⟨{ name := n, changes := [("cert", "Node setup finished successfully.")],
                  result := some true, comment := "Node setup executed." },
                [Effect.isfileProbe (ctx.certs_path ++ n ++ ".crt.orig"),
                 Effect.execNodeSetup n p t], ?_, ?_⟩
        · simp [run, node_setup, hc, ht, hr]
        · simp [run, node_setup, hc2, ht, hr]
      · refine ⟨{ name := n, changes := [], result := some false,
                  comment := ("FAILED. Node setup failed with outpu: " ++
                    (ctx.icinga2_node_setup n p t).stdout) },
                [Effect.isfileProbe (ctx.certs_path ++ n ++ ".crt.orig"),
                 Effect.execNodeSetup n p t], ?_, ?_⟩
        · simp [run, node_setup, hc, ht, hr]
        · simp [run, node_setup, hc2, ht, hr]

/-- Witness for claim C9 at a concrete input: one state holds only the
key-original file, the other nothing; node_setup returns an identical
record and trace on both. -/
theorem claim_C9_witness :
    (("/var/lib/icinga2/certs/" ++ "n" ++ ".crt.orig") ∈
       ["/var/lib/icinga2/certs/n.key.orig"] ↔
     ("/var/lib/icinga2/certs/" ++ "n" ++ ".crt.orig") ∈ ([] : List String)) ∧
    (∃ r fx,
      run (stubCtx false okRes)
          { files := ["/var/lib/icinga2/certs/n.key.orig"], grains := [] }
          (Action.node_setup "n" "p" "T") =
        some (r, { files := ["/var/lib/icinga2/certs/n.key.orig"], grains := [] }, fx) ∧
      run (stubCtx false okRes) emptySt (Action.node_setup "n" "p" "T") =
        some (r, emptySt, fx)) :=
  ⟨by decide,
   claim_C9_node_setup_ignores_key_file (stubCtx false okRes)
     { files := ["/var/lib/icinga2/certs/n.key.orig"], grains := [] }
     emptySt "n" "p" "T" (by decide)⟩

end Icinga2
